import Mathlib

/-!
Shallow embedding of the 2waysync reconciliation engine.

Sources embedded:
- `src/utils/database.py` (`SyncDatabase`): the Record Store over the
  `lead_card_mapping` table, modelled as a list of rows; SQL UNIQUE and
  NOT NULL constraints are modelled explicitly (a violated constraint makes
  the statement fail and the operation return its error result, leaving the
  store unchanged, exactly as the `sqlite3.Error` handlers do).
- `src/sync_robust.py` (`RobustSyncEngine`): the two webhook entry points
  `sync_from_sheets_webhook` and `sync_from_trello_webhook`, with the status
  to list-id mapping and its reverse.  The remote Trello and Sheets clients
  are modelled as an oracle environment of total functions, matching the
  fact that `TaskClient`/`LeadClient` methods catch their own exceptions and
  return `None`/`[]`/`False` on failure.
- `src/lead_client.py` (`LeadClient.update_lead_status`): the row-matching
  scan over the sheet records.

Machine details carried over faithfully:
- Python string truthiness (`if not s`) is the empty-string test.
- `str.strip`, `str.title`, `str.lower` and slicing `[:20]` are modelled for
  the ASCII strings the system uses.
- `datetime.now()` is modelled as an explicit `now : Nat` tick argument.
- The `Task` pydantic model (`src/utils/models.py`) has fields
  `id, title, status, lead_id, notes, list_id` and **no** `description`
  field; the loop in `sync_from_sheets_webhook` (line 165) reads
  `card.description`, so its first iteration raises `AttributeError`, which
  the outer `except` turns into a failure outcome.  The embedding keeps that
  behaviour: a non-empty fetched card list aborts the created-path.
- `sync_robust.py` reads `Config.TRELLO_IN_PROGRESS_LIST_ID` (lines 38, 48)
  and `Config.TRELLO_DONE_LIST_ID` (lines 40, 50), attributes
  `utils/config.py` does NOT define (it defines
  `TRELLO_CONTACTED_LIST_ID` / `TRELLO_CLOSED_LIST_ID` instead).  Both dict
  literals therefore raise `AttributeError` on every call of
  `_map_status_to_list_id` and `_map_list_id_to_status`, regardless of
  input.  The mappers are embedded as `Except`-valued functions that always
  return that error; the engine branches that would consume a returned lane
  or status are kept as written in the source but are unreachable, and each
  call site routes the exception to the outer handler, which returns a
  failure outcome.  Consequently the engine can never move a card, never
  create a card (line 204 precedes `create_task_in_list`), and never
  propagate a task-side move (line 305 precedes every store and lead
  write).
-/

namespace TwoWaySync

/-- ASCII model of the whitespace class stripped by Python `str.strip()`. -/
def pyIsSpace (c : Char) : Bool :=
  c == ' ' || c == '\t' || c == '\n' || c == '\r' || c == '\x0b' || c == '\x0c'

/-- Python `str.strip()` (no arguments): drop whitespace from both ends. -/
def pyStrip (s : String) : String :=
  ⟨((s.data.dropWhile pyIsSpace).reverse.dropWhile pyIsSpace).reverse⟩

/-- Character list worker for Python `str.title()`: the boolean says whether
the previous character was cased (a letter, for the ASCII data used here). -/
def pyTitleGo : Bool → List Char → List Char
  | _, [] => []
  | prevCased, c :: cs =>
    if c.isAlpha then
      (if prevCased then c.toLower else c.toUpper) :: pyTitleGo true cs
    else
      c :: pyTitleGo false cs

/-- Python `str.title()` restricted to ASCII: the first letter of every
letter run is uppercased, the following letters lowercased. -/
def pyTitle (s : String) : String := ⟨pyTitleGo false s.data⟩

/-- Python `str.lower()` restricted to ASCII. -/
def pyLower (s : String) : String := ⟨s.data.map Char.toLower⟩

/-- Python truthiness of an optional string (`None` and `""` are falsy). -/
def optTruthy : Option String → Bool
  | none => false
  | some s => !(s == "")

/-- Python `s.startswith(p)`, via the character lists. -/
def pyStartswith (s p : String) : Bool :=
  p.data.isPrefixOf s.data

/-- The four Trello list-id attributes `utils/config.py` actually defines
(lines 34-37).  Environment values may be empty strings (`os.getenv`
defaults to `""`).  Note the names: the engine instead reads
`TRELLO_IN_PROGRESS_LIST_ID` and `TRELLO_DONE_LIST_ID`, which do not exist
here — see `configAttrError`. -/
structure Config where
  TRELLO_NEW_LIST_ID : String
  TRELLO_CONTACTED_LIST_ID : String
  TRELLO_QUALIFIED_LIST_ID : String
  TRELLO_CLOSED_LIST_ID : String
deriving Repr, DecidableEq

/-- The `str(e)` of the `AttributeError` both mapper dict literals raise:
their second entry reads `Config.TRELLO_IN_PROGRESS_LIST_ID`
(sync_robust.py lines 38 and 48), an attribute `utils/config.py` does not
define.  Python quoting inside the message is elided. -/
def configAttrError : String :=
  "AttributeError: type object Config has no attribute TRELLO_IN_PROGRESS_LIST_ID"

/-- One row of the `lead_card_mapping` table (`utils/database.py`).
`created_at` and `last_synced_status` are never read by the embedded
operations and are omitted; `updated_at` is a tick.  `last_sync_source` is
nullable in SQL; the rows written by the embedded operations always set it,
and `""` stands for NULL. -/
structure Row where
  lead_id : String
  lead_name : String
  lead_email : String
  lead_phone : String
  lead_company : String
  card_id : String
  card_title : String
  trello_list_id : String
  current_status : String
  last_sync_source : String
  updated_at : Nat
deriving Repr, DecidableEq

/-- The Record Store: the `lead_card_mapping` table in rowid order. -/
abbrev DB := List Row

/-- `WHERE lead_id = ?` as a row predicate. -/
def leadPred (lead_id : String) : Row → Bool := fun r => r.lead_id == lead_id

/-- `WHERE card_id = ?` as a row predicate. -/
def cardPred (card_id : String) : Row → Bool := fun r => r.card_id == card_id

/-- The SET clause of the sheets-side UPDATE in
`upsert_record_from_sheets`. -/
def sheetsUpdate (now : Nat) (lead_name lead_email lead_phone lead_company
    current_status : String) (r : Row) : Row :=
  { r with lead_name := lead_name, lead_email := lead_email,
           lead_phone := lead_phone, lead_company := lead_company,
           current_status := current_status,
           last_sync_source := "sheets", updated_at := now }

/-- The row inserted for a lead first seen from the sheet side. -/
def pendingRow (now : Nat) (lead_id lead_name lead_email lead_phone
    lead_company current_status : String) : Row :=
  { lead_id := lead_id, lead_name := lead_name,
    lead_email := lead_email, lead_phone := lead_phone,
    lead_company := lead_company, card_id := "PENDING_" ++ lead_id,
    card_title := lead_name ++ " (pending)",
    trello_list_id := "PENDING", current_status := current_status,
    last_sync_source := "sheets", updated_at := now }

/-- Per-row effect of the sheets-side UPDATE: rows matching the lead id are
rewritten by `sheetsUpdate`, others kept. -/
def upsertFn (now : Nat) (lead_id lead_name lead_email lead_phone
    lead_company current_status : String) (r : Row) : Row :=
  if leadPred lead_id r then
    sheetsUpdate now lead_name lead_email lead_phone lead_company
      current_status r
  else r

/-- `SyncDatabase.upsert_record_from_sheets` (database.py lines 478-552).
Returns `(success, action, record)` together with the new table.  The
UPDATE touches every row whose `lead_id` matches (UNIQUE makes that one row
in practice); the INSERT respects the UNIQUE constraint on `card_id`: if the
`PENDING_<lead_id>` placeholder collides with an existing `card_id`, the
INSERT raises and the handler returns `(False, "error", None)`. -/
def upsert_record_from_sheets (now : Nat) (lead_id lead_name lead_email
    lead_phone lead_company current_status : String) (db : DB) :
    Bool × String × Option Row × DB :=
  match db.find? (leadPred lead_id) with
  | some _ =>
    let db2 := db.map (upsertFn now lead_id lead_name lead_email lead_phone
      lead_company current_status)
    (true, "updated", db2.find? (leadPred lead_id), db2)
  | none =>
    if db.any (cardPred ("PENDING_" ++ lead_id)) then
      (false, "error", none, db)
    else
      let newRow := pendingRow now lead_id lead_name lead_email lead_phone
        lead_company current_status
      let db2 := db ++ [newRow]
      (true, "created", db2.find? (leadPred lead_id), db2)

/-- `SyncDatabase.create_record_with_card` (database.py lines 554-600).
A plain INSERT: if a row with the same `lead_id` or the same `card_id`
already exists the UNIQUE constraint fires, the `sqlite3.Error` handler
returns `(False, None)` and the table is unchanged. -/
def create_record_with_card (now : Nat) (lead_id lead_name lead_email
    lead_phone lead_company card_id card_title trello_list_id
    current_status : String) (db : DB) : Bool × Option Row × DB :=
  if db.any (fun r => leadPred lead_id r || cardPred card_id r) then
    (false, none, db)
  else
    let newRow : Row :=
      { lead_id := lead_id, lead_name := lead_name,
        lead_email := lead_email, lead_phone := lead_phone,
        lead_company := lead_company, card_id := card_id,
        card_title := card_title, trello_list_id := trello_list_id,
        current_status := current_status,
        last_sync_source := "sheets", updated_at := now }
    let db2 := db ++ [newRow]
    (true, db2.find? (leadPred lead_id), db2)

/-- The SET clause of the UPDATE in `update_from_trello_move`. -/
def trelloUpdate (now : Nat) (new_list_id new_status : String) (r : Row) :
    Row :=
  { r with trello_list_id := new_list_id, current_status := new_status,
           last_sync_source := "trello", updated_at := now }

/-- Per-row effect of the Trello-move UPDATE. -/
def moveFn (now : Nat) (card_id new_list_id new_status : String) (r : Row) :
    Row :=
  if cardPred card_id r then trelloUpdate now new_list_id new_status r
  else r

/-- `SyncDatabase.update_from_trello_move` (database.py lines 602-648).
`new_list_id` is optional because `sync_from_sheets_webhook` can pass the
`None` produced by an unmapped status; writing NULL into the NOT NULL
`trello_list_id` column of a matched row makes the UPDATE fail and the
handler return `(False, None)` with the table unchanged.  When no row
matches, the UPDATE is a no-op and the SELECT misses. -/
def update_from_trello_move (now : Nat) (card_id : String)
    (new_list_id : Option String) (new_status : String) (db : DB) :
    Bool × Option Row × DB :=
  if db.any (cardPred card_id) then
    match new_list_id with
    | none => (false, none, db)
    | some nl =>
      let db2 := db.map (moveFn now card_id nl new_status)
      (true, db2.find? (cardPred card_id), db2)
  else (false, none, db)

/-- `SyncDatabase.get_record_by_card_id` (database.py lines 674-696). -/
def get_record_by_card_id (card_id : String) (db : DB) : Option Row :=
  db.find? (cardPred card_id)

/-- A Trello card as produced by `TaskClient.get_all_tasks`
(`utils/models.py` `Task`): note there is no `description` field. -/
structure Task where
  id : String
  title : String
  status : String
  lead_id : Option String
  notes : String
  list_id : String
deriving Repr, DecidableEq

/-- The remote clients as a deterministic oracle.  Each field models the
observable result of one client method; the clients catch their own network
exceptions (`TaskClient.get_all_tasks` returns `[]`, `create_task_in_list`
returns `None`, `update_task` and `LeadClient.update_lead_status` return
`False`), so total functions suffice. -/
structure Env where
  get_all_tasks : List Task
  create_task_in_list : String → String → String → Option String
  update_task_ok : String → String → String → Bool
  update_lead_status_ok : String → String → Bool

/-- Count and log of the remote calls one engine pass issues. -/
structure Trace where
  cardCreates : Nat := 0
  cardMoves : Nat := 0
  leadWrites : List (String × String) := []
deriving Repr, DecidableEq

/-- The result dict of a webhook pass. -/
structure Outcome where
  success : Bool
  error : Option String := none
  action : Option String := none
  lead_id : Option String := none
  echo_skipped : Bool := false
  status_updated : Option Bool := none
deriving Repr, DecidableEq

/-- The lead-side webhook payload after `lead_data.get(k, "")`; `status`
keeps track of key absence because `lead_data.get("status", "New")`
distinguishes an absent key from an empty value. -/
structure LeadData where
  lead_id : String
  lead_name : String
  lead_email : String
  lead_phone : String
  lead_company : String
  status : Option String
deriving Repr, DecidableEq

/-- The task-side webhook payload (`card_data.get(k, "")`). -/
structure CardData where
  card_id : String
  card_name : String
  list_id : String
  action_type : String
deriving Repr, DecidableEq

/-- `RobustSyncEngine._map_status_to_list_id` (sync_robust.py lines 32-42).
Line 35 first normalises the status (kept here as a dead binding to mirror
the evaluation order); the dict literal then reads
`Config.TRELLO_IN_PROGRESS_LIST_ID` (line 38), which `Config` does not
define, so every call raises `AttributeError` — the function never returns
a lane. -/
def map_status_to_list_id (_cfg : Config) (sheet_status : String) :
    Except String (Option String) :=
  let _normalized :=
    if sheet_status == "" then "New" else pyTitle (pyStrip sheet_status)
  Except.error configAttrError

/-- `RobustSyncEngine._map_list_id_to_status` (sync_robust.py lines 44-52).
The reverse dict literal reads `Config.TRELLO_IN_PROGRESS_LIST_ID`
(line 48), which `Config` does not define, so every call raises
`AttributeError` — the function never returns a status. -/
def map_list_id_to_status (_cfg : Config) (_list_id : String) :
    Except String String :=
  Except.error configAttrError

/-- Lead id derivation (sync_robust.py line 98): `f"{name}_{email}"[:20]`
when the payload carries no id. -/
def derivedLeadId (ld : LeadData) : String :=
  if ld.lead_id == "" then (ld.lead_name ++ "_" ++ ld.lead_email).take 20
  else ld.lead_id

/-- Card title used for moves and creation (sync_robust.py lines 132, 211):
`f"{name} ({email})" if lead_email else name`. -/
def cardTitleFor (name email : String) : String :=
  if email == "" then name else name ++ " (" ++ email ++ ")"

/-- `RobustSyncEngine._format_card_description_for_new_card`
(sync_robust.py lines 54-63). -/
def format_card_description_for_new_card (lead_id name email phone company
    status : String) : String :=
  "Lead ID: " ++ lead_id ++ "\nName: " ++ name ++ "\nEmail: " ++
    (if email == "" then "N/A" else email) ++ "\nPhone: " ++
    (if phone == "" then "N/A" else phone) ++ "\nCompany: " ++
    (if company == "" then "N/A" else company) ++ "\nStatus: " ++ status ++
    "\nSource: Google Sheets"

/-- `RobustSyncEngine.sync_from_sheets_webhook` (sync_robust.py lines
65-257).  Returns the outcome dict, the new Record Store and the trace of
remote calls.  Notable source facts preserved:
- only `lead_name` is validated (line 92); a missing email passes through;
- in the created-branch the loop over the fetched cards reads
  `card.description`, an attribute `Task` does not define, so a non-empty
  card list raises `AttributeError` into the outer handler (failure
  outcome, no further calls, the upsert already committed);
- `create_record_with_card` results are ignored by the engine;
- remote move and creation failures only touch the stats counters and the
  pass still returns success. -/
def sync_from_sheets_webhook (cfg : Config) (env : Env) (now : Nat)
    (ld : LeadData) (db : DB) : Outcome × DB × Trace :=
  let lead_name := ld.lead_name
  let lead_email := ld.lead_email
  let sheet_status := ld.status.getD "New"
  if lead_name == "" then
    ({ success := false, error := some "Missing lead_name" }, db, {})
  else
    let lead_id := derivedLeadId ld
    let u := upsert_record_from_sheets now lead_id lead_name lead_email
      ld.lead_phone ld.lead_company sheet_status db
    let action := u.2.1
    let db1 := u.2.2.2
    if action == "updated" then
      match u.2.2.1 with
      | none =>
        -- unreachable: the upsert always returns the record on this path;
        -- in the source, reading a field of `None` would raise here.
        ({ success := false, error := some "record missing" }, db1, {})
      | some rec =>
        if !(rec.card_id == "") && !(pyStartswith rec.card_id "PENDING_")
        then
          match map_status_to_list_id cfg sheet_status with
          | Except.error e =>
            -- line 121: AttributeError propagates to the outer handler
            -- (line 253), which returns the failure dict; the upsert from
            -- line 107 has already committed.
            ({ success := false, error := some e }, db1, {})
          | Except.ok expected_list_id =>
            -- unreachable (the mapper always raises); kept as written in
            -- the source, lines 122-144.
            let matchesCurrent :=
              match expected_list_id with
              | none => false
              | some l => l == rec.trello_list_id
            if !matchesCurrent then
              let moveOk := env.update_task_ok rec.card_id sheet_status
                (cardTitleFor lead_name lead_email)
              if moveOk then
                let db2 := (update_from_trello_move now rec.card_id
                  expected_list_id sheet_status db1).2.2
                ({ success := true, action := some "updated",
                   lead_id := some lead_id }, db2, { cardMoves := 1 })
              else
                ({ success := true, action := some "updated",
                   lead_id := some lead_id }, db1, { cardMoves := 1 })
            else
              ({ success := true, action := some "updated",
                 lead_id := some lead_id }, db1, {})
        else
          ({ success := true, action := some "updated",
             lead_id := some lead_id }, db1, {})
    else if action == "created" then
      match env.get_all_tasks with
      | _ :: _ =>
        -- line 165: `card.description` raises AttributeError on the first
        -- card (the Task model has no such field).
        ({ success := false,
           error := some "Task object has no attribute description" },
         db1, {})
      | [] =>
        match map_status_to_list_id cfg sheet_status with
        | Except.error e =>
          -- line 204: AttributeError propagates to the outer handler;
          -- `create_task_in_list` (line 217) is never reached.
          ({ success := false, error := some e }, db1, {})
        | Except.ok target_list_id =>
          -- unreachable; kept as written in the source, lines 206-242.
          if !(optTruthy target_list_id) then
            ({ success := false,
               error := some ("Cannot map status " ++ sheet_status ++
                 " to Trello list") }, db1, {})
          else
            let card_title := cardTitleFor lead_name lead_email
            let card_description := format_card_description_for_new_card
              lead_id lead_name lead_email ld.lead_phone ld.lead_company
              sheet_status
            match env.create_task_in_list (target_list_id.getD "")
                card_title card_description with
            | some new_card_id =>
              let db2 := (create_record_with_card now lead_id lead_name
                lead_email ld.lead_phone ld.lead_company new_card_id
                card_title (target_list_id.getD "") sheet_status db1).2.2
              ({ success := true, action := some "created",
                 lead_id := some lead_id }, db2, { cardCreates := 1 })
            | none =>
              ({ success := true, action := some "created",
                 lead_id := some lead_id }, db1, { cardCreates := 1 })
    else
      ({ success := false, error := some "Database upsert failed" }, db1, {})

/-- `RobustSyncEngine.sync_from_trello_webhook` (sync_robust.py lines
259-349).  A miss in the Record Store returns a failure outcome with no
writes; the echo gate compares `last_sync_source` with `"sheets"` only when
the mapped status differs from the stored one. -/
def sync_from_trello_webhook (cfg : Config) (env : Env) (now : Nat)
    (cd : CardData) (db : DB) : Outcome × DB × Trace :=
  if cd.card_id == "" then
    ({ success := false, error := some "Missing card_id" }, db, {})
  else
    match get_record_by_card_id cd.card_id db with
    | none =>
      ({ success := false, error := some "Card not in database" }, db, {})
    | some rec =>
      match map_list_id_to_status cfg cd.list_id with
      | Except.error e =>
        -- line 305: AttributeError propagates to the outer handler
        -- (line 345); no store write and no lead-side call happen.
        ({ success := false, error := some e }, db, {})
      | Except.ok new_status =>
        -- unreachable (the mapper always raises); kept as written in the
        -- source, lines 306-343.
        if !(rec.current_status == new_status) then
          if rec.last_sync_source == "sheets" then
            ({ success := true, echo_skipped := true }, db, {})
          else
            let m := update_from_trello_move now cd.card_id
              (some cd.list_id) new_status db
            if m.1 then
              let _ := env.update_lead_status_ok rec.lead_id new_status
              ({ success := true, status_updated := some true }, m.2.2,
               { leadWrites := [(rec.lead_id, new_status)] })
            else
              ({ success := true, status_updated := some true }, m.2.2, {})
        else
          ({ success := true, status_updated := some false }, db, {})

/-!  `LeadClient.update_lead_status` (lead_client.py lines 219-342).
The sheet is modelled as the list of records after gspread returned them
and after the `record.get("name", record.get("Name", ""))` casing
resolution; the header scan for the Status column and the cell write are
represented by the returned row index.  The source enumerates rows from 2
(header offset); the embedding indexes from 0. -/

/-- One sheet record with the id/name/email values the matching loop reads,
plus the status cell it may write. -/
structure SheetRecord where
  id : String
  name : String
  email : String
  status : String
deriving Repr, DecidableEq

/-- Which of the three matching methods hit (lead_client.py lines 276-323). -/
inductive MatchMethod
  | idCol
  | nameEmail
  | direct
deriving Repr, DecidableEq

/-- Method 1 (lead_client.py line 277): non-empty stripped id column equal
to the stripped lead id. -/
def method1 (lead_id : String) (r : SheetRecord) : Bool :=
  !(pyStrip r.id == "") && pyStrip r.id == pyStrip lead_id

/-- Method 2 (lead_client.py lines 289-298): both name and email truthy and
`(name + "_" + email)[:20].strip() == lead_id[:20].strip()`. -/
def method2 (lead_id : String) (r : SheetRecord) : Bool :=
  !(r.name == "") && !(r.email == "") &&
    pyStrip ((r.name ++ "_" ++ r.email).take 20) ==
      pyStrip (lead_id.take 20)

/-- Method 3 (lead_client.py lines 310-314): caller supplied truthy name and
email, matched case-insensitively after stripping. -/
def method3 (lead_name lead_email : Option String) (r : SheetRecord) :
    Bool :=
  optTruthy lead_name && optTruthy lead_email &&
    pyLower (pyStrip r.name) == pyLower (pyStrip (lead_name.getD "")) &&
    pyLower (pyStrip r.email) == pyLower (pyStrip (lead_email.getD ""))

/-- The scan of `update_lead_status` (lead_client.py lines 265-323): for
each record in sheet order, methods 1, 2, 3 are tried in that order and the
first hit returns the row index and the method that matched. -/
def scanRecords (lead_id : String) (lead_name lead_email : Option String) :
    List SheetRecord → Option (Nat × MatchMethod)
  | [] => none
  | r :: rs =>
    if method1 lead_id r then some (0, MatchMethod.idCol)
    else if method2 lead_id r then some (0, MatchMethod.nameEmail)
    else if method3 lead_name lead_email r then some (0, MatchMethod.direct)
    else (scanRecords lead_id lead_name lead_email rs).map
      (fun p => (p.1 + 1, p.2))

/-- Write the status cell of row `i`. -/
def setStatusAt (new_status : String) : List SheetRecord → Nat →
    List SheetRecord
  | [], _ => []
  | r :: rs, 0 => { r with status := new_status } :: rs
  | r :: rs, i + 1 => r :: setStatusAt new_status rs i

/-- `LeadClient.update_lead_status`: returns whether a row matched and the
sheet after the status cell write. -/
def update_lead_status (lead_id new_status : String)
    (lead_name lead_email : Option String) (sheet : List SheetRecord) :
    Bool × List SheetRecord :=
  match scanRecords lead_id lead_name lead_email sheet with
  | some (i, _) => (true, setStatusAt new_status sheet i)
  | none => (false, sheet)

/-- Method order within a single row: the first of methods 1, 2, 3 that
matches the row (none when the row does not match at all). -/
def rowFirstMethod (lead_id : String)
    (lead_name lead_email : Option String) (r : SheetRecord) :
    Option MatchMethod :=
  if method1 lead_id r then some MatchMethod.idCol
  else if method2 lead_id r then some MatchMethod.nameEmail
  else if method3 lead_name lead_email r then some MatchMethod.direct
  else none

/-- Erase the `updated_at` tick of every row (used to compare Record Store
contents up to timestamps). -/
def eraseUpdatedAt (db : DB) : DB :=
  db.map (fun r => { r with updated_at := 0 })

/-- The closed status vocabulary of the specification. -/
def statusVocab : List String := ["New", "Contacted", "Qualified", "Closed"]

/-! ### Basic lemmas about the Record Store operations -/

@[simp] lemma leadPred_iff (lid : String) (r : Row) :
    leadPred lid r = true ↔ r.lead_id = lid := by
  simp [leadPred]

@[simp] lemma cardPred_iff (cid : String) (r : Row) :
    cardPred cid r = true ↔ r.card_id = cid := by
  simp [cardPred]

lemma find?_append_left_none {α : Type} (p : α → Bool) {pre : List α}
    (rest : List α) (h : ∀ r ∈ pre, p r = false) :
    (pre ++ rest).find? p = rest.find? p := by
  rw [List.find?_append]
  have h0 : pre.find? p = none := List.find?_eq_none.mpr (by
    intro x hx
    simp [h x hx])
  rw [h0]
  simp

lemma map_pre_post {α : Type} (f : α → α) (pre post : List α) (r0 : α)
    (h1 : ∀ r ∈ pre, f r = r) (h2 : ∀ r ∈ post, f r = r) :
    (pre ++ r0 :: post).map f = pre ++ f r0 :: post := by
  rw [List.map_append, List.map_cons]
  have e1 : pre.map f = pre := by
    rw [List.map_congr_left h1]
    exact List.map_id pre
  have e2 : post.map f = post := by
    rw [List.map_congr_left h2]
    exact List.map_id post
  rw [e1, e2]

lemma find?_map_pres (f : Row → Row) (p : Row → Bool)
    (hf : ∀ r, p (f r) = p r) (db : DB) :
    (db.map f).find? p = (db.find? p).map f := by
  rw [List.find?_map]
  have : p ∘ f = p := funext hf
  rw [this]

lemma upsertFn_lead_id (now : Nat) (lid n e p c st : String) (r : Row) :
    (upsertFn now lid n e p c st r).lead_id = r.lead_id := by
  unfold upsertFn sheetsUpdate
  split <;> rfl




lemma upsertFn_leadPred (now : Nat) (lid n e p c st : String) (r : Row) :
    leadPred lid (upsertFn now lid n e p c st r) = leadPred lid r := by
  simp [leadPred, upsertFn_lead_id]

/-- Characterization of the UPDATE branch of the upsert. -/
lemma upsert_updated_eq (now : Nat) (lid n e p c st : String) (db : DB)
    (r0 : Row) (h : db.find? (leadPred lid) = some r0) :
    upsert_record_from_sheets now lid n e p c st db =
      (true, "updated", some (sheetsUpdate now n e p c st r0),
       db.map (upsertFn now lid n e p c st)) := by
  have hr0 : leadPred lid r0 = true := List.find?_some h
  have hfind : (db.map (upsertFn now lid n e p c st)).find? (leadPred lid)
      = some (upsertFn now lid n e p c st r0) := by
    rw [find?_map_pres _ _ (upsertFn_leadPred now lid n e p c st), h]
    rfl
  have hfr0 : upsertFn now lid n e p c st r0 =
      sheetsUpdate now n e p c st r0 := by
    simp [upsertFn, hr0]
  simp only [upsert_record_from_sheets, h, hfind, hfr0]

/-- Characterization of the INSERT branch of the upsert. -/
lemma upsert_created_eq (now : Nat) (lid n e p c st : String) (db : DB)
    (h : db.find? (leadPred lid) = none)
    (hc : db.any (cardPred ("PENDING_" ++ lid)) = false) :
    upsert_record_from_sheets now lid n e p c st db =
      (true, "created", some (pendingRow now lid n e p c st),
       db ++ [pendingRow now lid n e p c st]) := by
  have hfind : (db ++ [pendingRow now lid n e p c st]).find? (leadPred lid)
      = some (pendingRow now lid n e p c st) := by
    rw [List.find?_append, h]
    simp [leadPred, pendingRow]
  simp only [upsert_record_from_sheets, h, hc, Bool.false_eq_true,
    if_false, hfind]

/-- Characterization of the failing INSERT branch of the upsert. -/
lemma upsert_error_eq (now : Nat) (lid n e p c st : String) (db : DB)
    (h : db.find? (leadPred lid) = none)
    (hc : db.any (cardPred ("PENDING_" ++ lid)) = true) :
    upsert_record_from_sheets now lid n e p c st db =
      (false, "error", none, db) := by
  simp only [upsert_record_from_sheets, h, hc, if_true]

lemma pyStartswith_append (p t : String) :
    pyStartswith (p ++ t) p = true := by
  simp [pyStartswith, List.isPrefixOf_iff_prefix]

/-! ### Run characterizations -/

/-- Rows not matching the lead id pass through the upsert map unchanged. -/
lemma upsertFn_id (now : Nat) (lid n e p c st : String) (r : Row)
    (h : leadPred lid r = false) : upsertFn now lid n e p c st r = r := by
  simp [upsertFn, h]

/-- The lead-side pass never issues any remote call: every reachable branch
either fails before a remote call (missing name, upsert error, the
`card.description` AttributeError, the mapper AttributeError at lines 121
and 204) or is a store-only no-op. -/
lemma sheets_trace_empty (cfg : Config) (env : Env) (now : Nat)
    (ld : LeadData) (db : DB) :
    (sync_from_sheets_webhook cfg env now ld db).2.2 = {} := by
  unfold sync_from_sheets_webhook
  dsimp only [map_status_to_list_id]
  split
  · rfl
  · split
    · split
      · rfl
      · split
        · rfl
        · rfl
    · split
      · split
        · rfl
        · rfl
      · rfl

/-- The task-side pass never writes the store and never issues a remote
call: a miss returns before any write, and a hit raises the mapper
AttributeError at line 305 before any write. -/
lemma trello_run_shape (cfg : Config) (env : Env) (now : Nat)
    (cd : CardData) (db : DB) :
    ∃ o : Outcome, sync_from_trello_webhook cfg env now cd db =
      (o, db, {}) := by
  unfold sync_from_trello_webhook
  dsimp only [map_list_id_to_status]
  split
  · exact ⟨_, rfl⟩
  · split
    · exact ⟨_, rfl⟩
    · exact ⟨_, rfl⟩


/-- Updated-path run: whatever else happens, the store component is exactly
the sheets-side UPDATE of the input store and no remote call is made. -/
lemma sheets_updated_run (cfg : Config) (env : Env) (now : Nat)
    (ld : LeadData) (db : DB) (r0 : Row)
    (hname : (ld.lead_name == "") = false)
    (hfind : db.find? (leadPred (derivedLeadId ld)) = some r0) :
    (sync_from_sheets_webhook cfg env now ld db).2.1 =
      db.map (upsertFn now (derivedLeadId ld) ld.lead_name ld.lead_email
        ld.lead_phone ld.lead_company (ld.status.getD "New")) ∧
    (sync_from_sheets_webhook cfg env now ld db).2.2 = {} := by
  unfold sync_from_sheets_webhook
  dsimp only [map_status_to_list_id]
  rw [hname]
  simp only [Bool.false_eq_true, if_false]
  rw [upsert_updated_eq now (derivedLeadId ld) ld.lead_name ld.lead_email
    ld.lead_phone ld.lead_company (ld.status.getD "New") db r0 hfind]
  dsimp only
  simp only [beq_self_eq_true, eq_self_iff_true, if_true]
  split
  · exact ⟨rfl, rfl⟩
  · exact ⟨rfl, rfl⟩

/-- Updated-path run for a row with a real card id: the pass commits the
sheets-side UPDATE and then fails with the mapper AttributeError from
line 121, making no remote call. -/
lemma sheets_updated_realcard_run (cfg : Config) (env : Env) (now : Nat)
    (ld : LeadData) (db : DB) (r0 : Row)
    (hname : (ld.lead_name == "") = false)
    (hfind : db.find? (leadPred (derivedLeadId ld)) = some r0)
    (hcardne : (r0.card_id == "") = false)
    (hcardp : pyStartswith r0.card_id "PENDING_" = false) :
    sync_from_sheets_webhook cfg env now ld db =
      ({ success := false, error := some configAttrError },
       db.map (upsertFn now (derivedLeadId ld) ld.lead_name ld.lead_email
         ld.lead_phone ld.lead_company (ld.status.getD "New")), {}) := by
  unfold sync_from_sheets_webhook
  dsimp only [map_status_to_list_id]
  rw [hname]
  simp only [Bool.false_eq_true, if_false]
  rw [upsert_updated_eq now (derivedLeadId ld) ld.lead_name ld.lead_email
    ld.lead_phone ld.lead_company (ld.status.getD "New") db r0 hfind]
  dsimp only
  simp only [beq_self_eq_true, eq_self_iff_true, if_true]
  rw [show (sheetsUpdate now ld.lead_name ld.lead_email ld.lead_phone
    ld.lead_company (ld.status.getD "New") r0).card_id = r0.card_id from
    rfl]
  rw [hcardne, hcardp]
  rfl

/-- Created-path run: the pass leaves exactly the new pending row in the
store and makes no remote call — with a non-empty board listing the
`card.description` AttributeError fires, and with an empty listing the
mapper AttributeError at line 204 fires before `create_task_in_list`. -/
lemma sheets_created_run (cfg : Config) (env : Env) (now : Nat)
    (ld : LeadData) (db : DB)
    (hname : (ld.lead_name == "") = false)
    (hnf : db.find? (leadPred (derivedLeadId ld)) = none)
    (hnocol : db.any (cardPred ("PENDING_" ++ derivedLeadId ld)) = false) :
    (sync_from_sheets_webhook cfg env now ld db).2.1 =
      db ++ [pendingRow now (derivedLeadId ld) ld.lead_name ld.lead_email
        ld.lead_phone ld.lead_company (ld.status.getD "New")] ∧
    (sync_from_sheets_webhook cfg env now ld db).2.2 = {} := by
  unfold sync_from_sheets_webhook
  dsimp only [map_status_to_list_id]
  rw [hname]
  simp only [Bool.false_eq_true, if_false]
  rw [upsert_created_eq now (derivedLeadId ld) ld.lead_name ld.lead_email
    ld.lead_phone ld.lead_company (ld.status.getD "New") db hnf hnocol]
  dsimp only
  rw [show (("created" : String) == "updated") = false from rfl]
  simp only [Bool.false_eq_true, if_false]
  rw [show (("created" : String) == "created") = true from rfl]
  simp only [eq_self_iff_true, if_true]
  cases henv : env.get_all_tasks with
  | cons a l => exact ⟨rfl, rfl⟩
  | nil => exact ⟨rfl, rfl⟩

/-- With a non-empty name, a fresh lead id and a colliding pending card
id, the upsert fails and the pass reports a database failure, leaving the
store untouched. -/
lemma sheets_error_run (cfg : Config) (env : Env) (now : Nat)
    (ld : LeadData) (db : DB)
    (hname : (ld.lead_name == "") = false)
    (hnf : db.find? (leadPred (derivedLeadId ld)) = none)
    (hcol : db.any (cardPred ("PENDING_" ++ derivedLeadId ld)) = true) :
    sync_from_sheets_webhook cfg env now ld db =
      ({ success := false, error := some "Database upsert failed" }, db,
       {}) := by
  unfold sync_from_sheets_webhook
  dsimp only [map_status_to_list_id]
  rw [hname]
  simp only [Bool.false_eq_true, if_false]
  rw [upsert_error_eq now (derivedLeadId ld) ld.lead_name ld.lead_email
    ld.lead_phone ld.lead_company (ld.status.getD "New") db hnf hcol]
  dsimp only
  rw [show (("error" : String) == "updated") = false from rfl]
  rw [show (("error" : String) == "created") = false from rfl]
  simp

/-! ### Concrete fixtures shared by the claim instances -/

/-- A configuration with four distinct non-empty list ids (the values are
irrelevant to the engine, which cannot read the attributes it wants). -/
def exampleCfg : Config := ⟨"LN", "LC", "LQ", "LD"⟩

/-- Remote oracle: empty board, creation and updates succeed. -/
def envAllOk : Env :=
  ⟨[], fun _ _ _ => some "C9", fun _ _ _ => true, fun _ _ => true⟩

/-- Remote oracle: the board listing returns one (manually created) card. -/
def envOneCard : Env :=
  ⟨[⟨"TC1", "Manual card", "New", none, "", "LN"⟩],
   fun _ _ _ => some "C9", fun _ _ _ => true, fun _ _ => true⟩

/-- A store row for lead L1 linked to real card C1 sitting in list LN. -/
def rowLinkedNew : Row :=
  ⟨"L1", "Ann", "a@x", "", "", "C1", "Ann (a@x)", "LN", "New", "trello", 0⟩

/-- The pending row left for lead L1 by a sheets-side creation. -/
def pendingL1 : Row := pendingRow 0 "L1" "Ann" "a@x" "" "" "New"

/-- Lead payload for L1 with the canonical status `Contacted`. -/
def ldContacted : LeadData := ⟨"L1", "Ann", "a@x", "", "", some "Contacted"⟩

/-! ### Claims -/

/-- Claim C3: for well-formed lead-side input, `upsert_record_from_sheets`
with an existing `lead_id` overwrites name/email/phone/company/status, sets
`last_sync_source` to `sheets`, bumps `updated_at` and returns action
`updated`; otherwise it inserts a new row with card id
`PENDING_<lead_id>`, list id `PENDING`, `last_sync_source` `sheets` and
returns action `created`.  Well-formedness asks that no foreign row already
uses the `PENDING_<lead_id>` sentinel as its card id (the UNIQUE constraint
would otherwise fail the INSERT). -/
theorem claim_C3 (now : Nat) (lid n e p c st : String) (db : DB)
    (hwf : ∀ r ∈ db, r.card_id ≠ "PENDING_" ++ lid) :
    (∀ r0, db.find? (leadPred lid) = some r0 →
      upsert_record_from_sheets now lid n e p c st db =
        (true, "updated",
         some { r0 with
                  lead_name := n, lead_email := e, lead_phone := p,
                  lead_company := c, current_status := st,
                  last_sync_source := "sheets", updated_at := now },
         db.map (upsertFn now lid n e p c st))) ∧
    (db.find? (leadPred lid) = none →
      upsert_record_from_sheets now lid n e p c st db =
        (true, "created", some (pendingRow now lid n e p c st),
         db ++ [pendingRow now lid n e p c st]) ∧
      (pendingRow now lid n e p c st).card_id = "PENDING_" ++ lid ∧
      (pendingRow now lid n e p c st).trello_list_id = "PENDING" ∧
      (pendingRow now lid n e p c st).last_sync_source = "sheets" ∧
      (pendingRow now lid n e p c st).updated_at = now) := by
  constructor
  · intro r0 h
    exact upsert_updated_eq now lid n e p c st db r0 h
  · intro h
    have hc : db.any (cardPred ("PENDING_" ++ lid)) = false := by
      rw [List.any_eq_false]
      intro x hx
      simp [cardPred]
      exact hwf x hx
    exact ⟨upsert_created_eq now lid n e p c st db h hc, rfl, rfl, rfl, rfl⟩

/-- Witness for C3 at a concrete input (empty store, creation branch). -/
theorem claim_C3_witness :
    upsert_record_from_sheets 5 "L1" "Ann" "a@x" "" "" "Contacted" [] =
      (true, "created",
       some (pendingRow 5 "L1" "Ann" "a@x" "" "" "Contacted"),
       [pendingRow 5 "L1" "Ann" "a@x" "" "" "Contacted"]) :=
  ((claim_C3 5 "L1" "Ann" "a@x" "" "" "Contacted" [] (by simp)).2 rfl).1

/-- Claim C4 (code bug): `create_record_with_card` is claimed to be an
idempotent upsert replacing a pending sentinel, but it is a plain INSERT:
with the pending row already present for the lead, the UNIQUE constraint on
`lead_id` fires, the call returns `(False, None)` and the sentinel row is
left untouched. -/
theorem claim_C4_code_bug :
    create_record_with_card 1 "L1" "Ann" "a@x" "" "" "C1" "Ann (a@x)" "LN"
      "New" [pendingL1] = (false, none, [pendingL1]) ∧
    pendingL1.card_id = "PENDING_" ++ "L1" := by
  constructor
  · rfl
  · rfl

/-- Sheet fixture: row 0 has an empty id column but a name+email composite
matching the lead id; row 1 matches the lead id in its id column. -/
def sheetRecs : List SheetRecord :=
  [⟨"", "Alice", "a@b.c", "New"⟩, ⟨"Alice_a@b.c", "Bob", "b@c.d", "New"⟩]

/-- Claim C5 counterexample: although row 1 of the sheet matches the lead
id by method 1 (id column), the scan updates row 0, which matched earlier
by method 2 — the scan is row-major, not method-major. -/
theorem claim_C5_counterexample :
    scanRecords "Alice_a@b.c" none none sheetRecs =
      some (0, MatchMethod.nameEmail) ∧
    method1 "Alice_a@b.c" ⟨"Alice_a@b.c", "Bob", "b@c.d", "New"⟩ = true ∧
    (update_lead_status "Alice_a@b.c" "Qualified" none none sheetRecs).2 =
      [⟨"", "Alice", "a@b.c", "Qualified"⟩,
       ⟨"Alice_a@b.c", "Bob", "b@c.d", "New"⟩] := by
  refine ⟨rfl, rfl, rfl⟩

/-- Claim C5 amended: the matching scan is row-major with per-row method
priority: the updated row is the first sheet row matching any method, the
reported method is the highest-priority method matching that row, and no
earlier row matches any method. -/
theorem claim_C5_amended (lid : String) (ln le : Option String)
    (recs : List SheetRecord) (i : Nat) (m : MatchMethod)
    (h : scanRecords lid ln le recs = some (i, m)) :
    ∃ r, recs[i]? = some r ∧ rowFirstMethod lid ln le r = some m ∧
      ∀ j r', j < i → recs[j]? = some r' →
        rowFirstMethod lid ln le r' = none := by
  induction recs generalizing i m with
  | nil => simp [scanRecords] at h
  | cons r rs ih =>
    rw [scanRecords] at h
    by_cases h1 : method1 lid r = true
    · rw [if_pos h1] at h
      obtain ⟨hi, hm⟩ := Prod.mk.injEq .. ▸ Option.some.inj h
      subst hi
      refine ⟨r, by simp, ?_, ?_⟩
      · simp [rowFirstMethod, h1, hm]
      · intro j r' hj
        omega
    · rw [if_neg h1] at h
      by_cases h2 : method2 lid r = true
      · rw [if_pos h2] at h
        obtain ⟨hi, hm⟩ := Prod.mk.injEq .. ▸ Option.some.inj h
        subst hi
        refine ⟨r, by simp, ?_, ?_⟩
        · simp [rowFirstMethod, h1, h2, hm]
        · intro j r' hj
          omega
      · rw [if_neg h2] at h
        by_cases h3 : method3 ln le r = true
        · rw [if_pos h3] at h
          obtain ⟨hi, hm⟩ := Prod.mk.injEq .. ▸ Option.some.inj h
          subst hi
          refine ⟨r, by simp, ?_, ?_⟩
          · simp [rowFirstMethod, h1, h2, h3, hm]
          · intro j r' hj
            omega
        · rw [if_neg h3] at h
          cases hs : scanRecords lid ln le rs with
          | none =>
            rw [hs] at h
            simp at h
          | some q =>
            rw [hs] at h
            have h' : some (q.1 + 1, q.2) = some (i, m) := h
            obtain ⟨hi, hm⟩ := Prod.mk.injEq .. ▸ Option.some.inj h'
            obtain ⟨r', hr', hfm, hprev⟩ := ih q.1 q.2 (by rw [hs])
            refine ⟨r', ?_, hm ▸ hfm, ?_⟩
            · rw [← hi]
              simpa using hr'
            · intro j r'' hj hget
              cases j with
              | zero =>
                have : r'' = r := by simpa using hget.symm
                subst this
                simp [rowFirstMethod, h1, h2, h3]
              | succ j' =>
                refine hprev j' r'' ?_ (by simpa using hget)
                omega

/-- Witness for amended C5 at the two-row sheet fixture. -/
theorem claim_C5_witness :
    ∃ r, sheetRecs[0]? = some r ∧
      rowFirstMethod "Alice_a@b.c" none none r =
        some MatchMethod.nameEmail ∧
      ∀ j r', j < 0 → sheetRecs[j]? = some r' →
        rowFirstMethod "Alice_a@b.c" none none r' = none :=
  claim_C5_amended "Alice_a@b.c" none none sheetRecs 0
    MatchMethod.nameEmail rfl

/-- Claim C8 counterexample: a move event for a card the Record Store does
not know is answered with `success = false` (error `Card not in database`),
not with the success-no-op the claim states. -/
theorem claim_C8_counterexample :
    (sync_from_trello_webhook exampleCfg envAllOk 1
      ⟨"C9", "", "LN", "updateCard"⟩ []).1.success = false ∧
    (sync_from_trello_webhook exampleCfg envAllOk 1
      ⟨"C9", "", "LN", "updateCard"⟩ []).1.error =
      some "Card not in database" := by
  constructor
  · rfl
  · rfl

/-- Claim C8 amended: on a Record Store miss the handler performs no store
write and no lead-side call, but reports the outcome as a failure with
error `Card not in database` rather than as a success. -/
theorem claim_C8_amended (cfg : Config) (env : Env) (now : Nat)
    (cd : CardData) (db : DB) (h : cd.card_id ≠ "")
    (hm : get_record_by_card_id cd.card_id db = none) :
    sync_from_trello_webhook cfg env now cd db =
      ({ success := false, error := some "Card not in database" }, db,
       {}) := by
  have hc : (cd.card_id == "") = false := by simp [h]
  simp [sync_from_trello_webhook, hc, hm]

/-- Witness for amended C8 at a concrete input. -/
theorem claim_C8_witness :
    sync_from_trello_webhook exampleCfg envAllOk 1
      ⟨"C9", "", "LN", "updateCard"⟩ [] =
      ({ success := false, error := some "Card not in database" }, [],
       {}) :=
  claim_C8_amended exampleCfg envAllOk 1 ⟨"C9", "", "LN", "updateCard"⟩ []
    (by decide) rfl

/-- Claim C10 (code bug): a lead-side event whose upsert succeeds (action
`created`) still returns `success = false` when the board listing is
non-empty: the search loop reads the undefined `Task.description`
attribute and the resulting `AttributeError` aborts the pass before any
remote creation is tried. -/
theorem claim_C10_code_bug :
    (sync_from_sheets_webhook exampleCfg envOneCard 1
       ⟨"L1", "Ann", "a@x", "", "", some "New"⟩ []).1.success = false ∧
    (sync_from_sheets_webhook exampleCfg envOneCard 1
       ⟨"L1", "Ann", "a@x", "", "", some "New"⟩ []).1.error =
      some "Task object has no attribute description" ∧
    (upsert_record_from_sheets 1 "L1" "Ann" "a@x" "" "" "New" []).1 =
      true ∧
    (sync_from_sheets_webhook exampleCfg envOneCard 1
       ⟨"L1", "Ann", "a@x", "", "", some "New"⟩ []).2.2.cardCreates =
      0 := by
  refine ⟨rfl, rfl, rfl, rfl⟩

/-- Claim C6 counterexample: a payload whose email is empty is not handled
as the claim says: a Record Store row IS created (with the empty email
recorded) and the reported error is not `Incomplete data`. -/
theorem claim_C6_counterexample :
    ((sync_from_sheets_webhook exampleCfg envAllOk 1
      ⟨"", "Ann", "", "", "", some "New"⟩ []).2.1).map Row.lead_email =
      [""] ∧
    (sync_from_sheets_webhook exampleCfg envAllOk 1
      ⟨"", "Ann", "", "", "", some "New"⟩ []).2.1 ≠ [] ∧
    (sync_from_sheets_webhook exampleCfg envAllOk 1
      ⟨"", "Ann", "", "", "", some "New"⟩ []).1.error ≠
      some "Incomplete data" := by
  refine ⟨rfl, by decide, by decide⟩

/-- Claim C6 amended: only the name is validated.  A missing or empty name
is rejected with success=false, error `Missing lead_name`, and no Record
Store write.  A missing email is not rejected: with a non-empty name, a
lead not yet in the store still gets its row inserted, recording the
(possibly empty) email verbatim — so the no-row guarantee of the claim
fails for a missing email, and no `Incomplete data` outcome exists. -/
theorem claim_C6_amended (cfg : Config) (env : Env) (now : Nat)
    (ld : LeadData) (db : DB) :
    (ld.lead_name = "" →
      sync_from_sheets_webhook cfg env now ld db =
        ({ success := false, error := some "Missing lead_name" }, db,
         {})) ∧
    (ld.lead_name ≠ "" →
      db.find? (leadPred (derivedLeadId ld)) = none →
      db.any (cardPred ("PENDING_" ++ derivedLeadId ld)) = false →
      (sync_from_sheets_webhook cfg env now ld db).2.1 =
        db ++ [pendingRow now (derivedLeadId ld) ld.lead_name
          ld.lead_email ld.lead_phone ld.lead_company
          (ld.status.getD "New")]) := by
  constructor
  · intro h
    simp [sync_from_sheets_webhook, h]
  · intro h hnf hnocol
    exact (sheets_created_run cfg env now ld db (by simp [h]) hnf
      hnocol).1

/-- Witness for amended C6: the missing-email payload still produces a row
whose `lead_email` is empty. -/
theorem claim_C6_witness :
    (sync_from_sheets_webhook exampleCfg envAllOk 1
      ⟨"", "Ann", "", "", "", some "New"⟩ []).2.1 =
      [pendingRow 1 "Ann_" "Ann" "" "" "" "New"] :=
  (claim_C6_amended exampleCfg envAllOk 1
    ⟨"", "Ann", "", "", "", some "New"⟩ []).2 (by decide) rfl rfl

/-- Claim C7 counterexample: the status-to-lane mapping returns no lane at
all — not the configured New lane — on the empty status and on `Banana`,
and the engine rejects even the canonical status `New` (the pass for a
fresh lead fails instead of creating a card in the New lane). -/
theorem claim_C7_counterexample :
    map_status_to_list_id exampleCfg "" = Except.error configAttrError ∧
    map_status_to_list_id exampleCfg "Banana" =
      Except.error configAttrError ∧
    (sync_from_sheets_webhook exampleCfg envAllOk 1
      ⟨"L1", "Ann", "a@x", "", "", some "New"⟩ []).1.success = false := by
  refine ⟨rfl, rfl, rfl⟩

/-- Claim C7 amended: `statusToLane` is not total and never returns a
lane: every call raises AttributeError, because the dict literal reads
`Config.TRELLO_IN_PROGRESS_LIST_ID` and `TRELLO_DONE_LIST_ID`, attributes
the configuration module does not define.  No status — empty, canonical or
unrecognized — is coerced to New; a lead-side pass that needs a lane
(updated path with a real card here; the created path analogously) fails
with that error after the store upsert, making no remote call. -/
theorem claim_C7_amended :
    (∀ cfg s, map_status_to_list_id cfg s =
      Except.error configAttrError) ∧
    (∀ cfg env now ld db r0,
      (ld.lead_name == "") = false →
      db.find? (leadPred (derivedLeadId ld)) = some r0 →
      (r0.card_id == "") = false →
      pyStartswith r0.card_id "PENDING_" = false →
      sync_from_sheets_webhook cfg env now ld db =
        ({ success := false, error := some configAttrError },
         db.map (upsertFn now (derivedLeadId ld) ld.lead_name
           ld.lead_email ld.lead_phone ld.lead_company
           (ld.status.getD "New")), {})) := by
  refine ⟨fun cfg s => rfl, ?_⟩
  intro cfg env now ld db r0 hname hfind hcardne hcardp
  exact sheets_updated_realcard_run cfg env now ld db r0 hname hfind
    hcardne hcardp

/-- Witness for amended C7: updating lead L1 (linked to real card C1)
fails with the configuration AttributeError after committing the sheet
data. -/
theorem claim_C7_witness :
    sync_from_sheets_webhook exampleCfg envAllOk 1 ldContacted
      [rowLinkedNew] =
      ({ success := false, error := some configAttrError },
       [rowLinkedNew].map (upsertFn 1 (derivedLeadId ldContacted)
         ldContacted.lead_name ldContacted.lead_email
         ldContacted.lead_phone ldContacted.lead_company
         (ldContacted.status.getD "New")), {}) :=
  claim_C7_amended.2 exampleCfg envAllOk 1 ldContacted [rowLinkedNew]
    rowLinkedNew rfl rfl rfl rfl

/-- Every row of the upsert result is an untouched input row or carries
the written status. -/
lemma upsert_mem_status (now : Nat) (lid n e p c st : String) (db : DB) :
    ∀ r ∈ (upsert_record_from_sheets now lid n e p c st db).2.2.2,
      r ∈ db ∨ r.current_status = st := by
  unfold upsert_record_from_sheets
  split
  · intro r hr
    obtain ⟨r0, hr0, hfr⟩ := List.mem_map.mp hr
    by_cases hp : leadPred lid r0 = true
    · right
      rw [← hfr]
      simp [upsertFn, hp, sheetsUpdate]
    · left
      rw [← hfr]
      simpa [upsertFn, hp] using hr0
  · split
    · intro r hr
      exact Or.inl hr
    · intro r hr
      rcases List.mem_append.mp hr with h | h
      · exact Or.inl h
      · right
        have : r = pendingRow now lid n e p c st := by simpa using h
        rw [this]
        rfl

/-- Claim C9 counterexample: a lead-side payload carrying the status
`Banana` is stored verbatim — the resulting row current_status is not in
the closed vocabulary. -/
theorem claim_C9_counterexample :
    ((sync_from_sheets_webhook exampleCfg envAllOk 1
      ⟨"L1", "Ann", "a@x", "", "", some "Banana"⟩ []).2.1).map
        Row.current_status = ["Banana"] ∧
    "Banana" ∉ statusVocab := by
  constructor
  · rfl
  · decide

/-- Claim C9 amended: the lead-side path stores the input status verbatim,
so the vocabulary invariant fails there; the rest of the claim degrades to
what the program actually does: (1) the reverse lane mapping never
supplies a status at all — every call raises the configuration
AttributeError; (2) hence the task-side handler never writes
`current_status` (it never writes the store); (3) a lead-side payload with
an ABSENT status field only ever writes the default `New`. -/
theorem claim_C9_amended :
    (∀ cfg l, map_list_id_to_status cfg l =
      Except.error configAttrError) ∧
    (∀ cfg env now cd db,
      (sync_from_trello_webhook cfg env now cd db).2.1 = db) ∧
    (∀ cfg env now ld db, ld.status = none →
      ∀ r ∈ (sync_from_sheets_webhook cfg env now ld db).2.1,
        r ∈ db ∨ r.current_status = "New") := by
  refine ⟨fun cfg l => rfl, ?_, ?_⟩
  · intro cfg env now cd db
    obtain ⟨o, h⟩ := trello_run_shape cfg env now cd db
    rw [h]
  · intro cfg env now ld db h r hr
    unfold sync_from_sheets_webhook at hr
    rw [h, Option.getD_none] at hr
    dsimp only [map_status_to_list_id] at hr
    have hups := upsert_mem_status now (derivedLeadId ld) ld.lead_name
      ld.lead_email ld.lead_phone ld.lead_company "New" db
    split at hr
    · exact Or.inl hr
    · split at hr
      · split at hr
        · exact hups r hr
        · split at hr
          · exact hups r hr
          · exact hups r hr
      · split at hr
        · split at hr
          · exact hups r hr
          · exact hups r hr
        · exact hups r hr

/-- Witness for amended C9: at a concrete payload without a status field
the stored row status is `New`. -/
theorem claim_C9_witness :
    ∀ r ∈ (sync_from_sheets_webhook exampleCfg envAllOk 1
      ⟨"L1", "Ann", "a@x", "", "", none⟩ []).2.1,
      r ∈ ([] : DB) ∨ r.current_status = "New" :=
  claim_C9_amended.2.2 exampleCfg envAllOk 1
    ⟨"L1", "Ann", "a@x", "", "", none⟩ [] rfl

/-- Claim C1 (code bug): echo suppression is what the spec and the code
intend (sync_robust.py lines 312-315), but the gate is unreachable: the
task-side handler raises the configuration AttributeError at line 305
before any gate, store write or lead-side call, and the lead-side pass can
never move a card (line 121 raises first).  Certified: (1) every task-side
event leaves the store unchanged and makes no remote call; (2) every
lead-side pass makes no remote call (no move, no creation, no lead write);
(3) at the concrete linked-card move event the handler returns the
AttributeError failure with the store intact. -/
theorem claim_C1_code_bug :
    (∀ cfg env now cd db, ∃ o : Outcome,
      sync_from_trello_webhook cfg env now cd db = (o, db, {})) ∧
    (∀ cfg env now ld db,
      (sync_from_sheets_webhook cfg env now ld db).2.2 = {}) ∧
    sync_from_trello_webhook exampleCfg envAllOk 2
        ⟨"C1", "", "LC", "updateCard"⟩ [rowLinkedNew] =
      ({ success := false, error := some configAttrError },
       [rowLinkedNew], {}) := by
  refine ⟨trello_run_shape, sheets_trace_empty, rfl⟩


/-- Applying the sheets-side UPDATE twice with the same field values
changes nothing beyond the `updated_at` tick. -/
lemma eraseUpd_upsert_twice (now1 now2 : Nat) (lid n e p c st : String)
    (db : DB) :
    eraseUpdatedAt ((db.map (upsertFn now1 lid n e p c st)).map
      (upsertFn now2 lid n e p c st)) =
    eraseUpdatedAt (db.map (upsertFn now1 lid n e p c st)) := by
  unfold eraseUpdatedAt
  simp only [List.map_map]
  apply List.map_congr_left
  intro r _
  simp only [Function.comp]
  cases hp : leadPred lid r with
  | false => simp [upsertFn, hp]
  | true =>
    have hpe : r.lead_id = lid := by simpa [leadPred] using hp
    simp [upsertFn, leadPred, hpe, sheetsUpdate]

/-- Claim C2 (idempotence), confirmed: for every payload with non-empty
name and email and ANY initial store, running the lead-side pass twice
with identical fields leaves the same store after the second call as after
the first up to the `updated_at` tick, and at most one remote
card-creation call is made across both invocations (in fact the program
can never create a card: both created-path continuations fail before
`create_task_in_list`). -/
theorem claim_C2 (cfg : Config) (env : Env) (now1 now2 : Nat)
    (ld : LeadData) (db0 : DB)
    (hname : ld.lead_name ≠ "") (hemail : ld.lead_email ≠ "") :
    eraseUpdatedAt (sync_from_sheets_webhook cfg env now2 ld
      (sync_from_sheets_webhook cfg env now1 ld db0).2.1).2.1 =
      eraseUpdatedAt (sync_from_sheets_webhook cfg env now1 ld
        db0).2.1 ∧
    (sync_from_sheets_webhook cfg env now1 ld db0).2.2.cardCreates +
      (sync_from_sheets_webhook cfg env now2 ld
        (sync_from_sheets_webhook cfg env now1 ld
          db0).2.1).2.2.cardCreates ≤ 1 := by
  have hnb : (ld.lead_name == "") = false := by simp [hname]
  constructor
  · cases hf : db0.find? (leadPred (derivedLeadId ld)) with
    | some r0 =>
      obtain ⟨hdb1, -⟩ := sheets_updated_run cfg env now1 ld db0 r0 hnb hf
      rw [hdb1]
      have hfind2 : (db0.map (upsertFn now1 (derivedLeadId ld)
          ld.lead_name ld.lead_email ld.lead_phone ld.lead_company
          (ld.status.getD "New"))).find? (leadPred (derivedLeadId ld)) =
          some (upsertFn now1 (derivedLeadId ld) ld.lead_name
            ld.lead_email ld.lead_phone ld.lead_company
            (ld.status.getD "New") r0) := by
        rw [find?_map_pres _ _ (upsertFn_leadPred now1 (derivedLeadId ld)
          ld.lead_name ld.lead_email ld.lead_phone ld.lead_company
          (ld.status.getD "New")), hf]
        rfl
      obtain ⟨hdb2, -⟩ := sheets_updated_run cfg env now2 ld _ _ hnb
        hfind2
      rw [hdb2]
      exact eraseUpd_upsert_twice now1 now2 (derivedLeadId ld)
        ld.lead_name ld.lead_email ld.lead_phone ld.lead_company
        (ld.status.getD "New") db0
    | none =>
      by_cases hcol : db0.any (cardPred ("PENDING_" ++ derivedLeadId ld))
          = true
      · rw [sheets_error_run cfg env now1 ld db0 hnb hf hcol]
        dsimp only
        rw [sheets_error_run cfg env now2 ld db0 hnb hf hcol]
      · have hcolf : db0.any (cardPred ("PENDING_" ++ derivedLeadId ld))
            = false := by simpa using hcol
        obtain ⟨hdb1, -⟩ := sheets_created_run cfg env now1 ld db0 hnb hf
          hcolf
        rw [hdb1]
        have hfind2 : (db0 ++ [pendingRow now1 (derivedLeadId ld)
            ld.lead_name ld.lead_email ld.lead_phone ld.lead_company
            (ld.status.getD "New")]).find? (leadPred (derivedLeadId ld)) =
            some (pendingRow now1 (derivedLeadId ld) ld.lead_name
              ld.lead_email ld.lead_phone ld.lead_company
              (ld.status.getD "New")) := by
          rw [find?_append_left_none _ _ (fun r hr => by
            have hne := List.find?_eq_none.mp hf r hr
            cases hbv : leadPred (derivedLeadId ld) r with
            | false => rfl
            | true => exact absurd hbv hne)]
          exact List.find?_cons_of_pos _ (by simp [leadPred, pendingRow])
        obtain ⟨hdb2, -⟩ := sheets_updated_run cfg env now2 ld _ _ hnb
          hfind2
        rw [hdb2]
        have hmap : (db0 ++ [pendingRow now1 (derivedLeadId ld)
            ld.lead_name ld.lead_email ld.lead_phone ld.lead_company
            (ld.status.getD "New")]).map (upsertFn now2 (derivedLeadId ld)
              ld.lead_name ld.lead_email ld.lead_phone ld.lead_company
              (ld.status.getD "New")) =
            db0 ++ [sheetsUpdate now2 ld.lead_name ld.lead_email
              ld.lead_phone ld.lead_company (ld.status.getD "New")
              (pendingRow now1 (derivedLeadId ld) ld.lead_name
                ld.lead_email ld.lead_phone ld.lead_company
                (ld.status.getD "New"))] := by
          rw [map_pre_post _ db0 [] _
            (fun r hr => upsertFn_id _ _ _ _ _ _ _ _ (by
              have hne := List.find?_eq_none.mp hf r hr
              cases hbv : leadPred (derivedLeadId ld) r with
              | false => rfl
              | true => exact absurd hbv hne))
            (fun r hr => absurd hr (List.not_mem_nil r))]
          congr 2
          simp [upsertFn, leadPred, pendingRow]
        rw [hmap]
        unfold eraseUpdatedAt
        rw [List.map_append, List.map_append]
        rfl
  · rw [sheets_trace_empty cfg env now1 ld db0,
      sheets_trace_empty cfg env now2 ld
        (sync_from_sheets_webhook cfg env now1 ld db0).2.1]
    decide

/-- Witness for C2 at a concrete input: lead L1 with a linked card,
processed twice. -/
theorem claim_C2_witness :
    eraseUpdatedAt (sync_from_sheets_webhook exampleCfg envAllOk 2
      ldContacted (sync_from_sheets_webhook exampleCfg envAllOk 1
        ldContacted [rowLinkedNew]).2.1).2.1 =
      eraseUpdatedAt (sync_from_sheets_webhook exampleCfg envAllOk 1
        ldContacted [rowLinkedNew]).2.1 ∧
    (sync_from_sheets_webhook exampleCfg envAllOk 1 ldContacted
      [rowLinkedNew]).2.2.cardCreates +
      (sync_from_sheets_webhook exampleCfg envAllOk 2 ldContacted
        (sync_from_sheets_webhook exampleCfg envAllOk 1 ldContacted
          [rowLinkedNew]).2.1).2.2.cardCreates ≤ 1 :=
  claim_C2 exampleCfg envAllOk 1 2 ldContacted [rowLinkedNew] (by decide)
    (by decide)

end TwoWaySync
